import Mathlib

/-!
Verification of the Sony SDK interoperability shim
(`SonySDKHelperSimple.cpp` and `SonySDKHelper.cpp`).

The shim exposes a C ABI around an image-data block and a lazily bound
vendor live-view fetch routine.  We embed the two translation units
shallowly:

* Pointers are modelled as natural numbers with `0` playing the role of
  the null pointer; a nullable block handle is an `Option` of the block
  structure (the handle either refers to a live block, whose value we
  carry directly, or is null).
* Byte memory is a total function `Nat → Nat`; `memcpy` is the usual
  functional update on an address range.
* The two process-wide statics of `SonySDKHelperSimple.cpp`
  (`hSonyDll`, `pGetLiveViewImage`) become an explicit state record that
  every call to `GetLiveViewImageHelper` threads through; the outcome of
  the platform loader and of the vendor routine on a given call is an
  explicit environment record.
* `CrInt32u` arguments are reduced modulo `2 ^ 32` where they are stored.
-/

namespace SonyShim

/-- Byte-addressable memory: each address holds one byte value. -/
def Mem : Type := Nat → Nat

/-- Model of `memcpy(dest, src, n)`: the `n` bytes starting at `dest`
receive the bytes starting at `src`; every other address is unchanged. -/
def memcpy (mem : Mem) (dest src n : Nat) : Mem :=
  fun a => if dest ≤ a ∧ a < dest + n then mem (src + (a - dest)) else mem a

theorem memcpy_inside (mem : Mem) (dest src n a : Nat)
    (h1 : dest ≤ a) (h2 : a < dest + n) :
    memcpy mem dest src n a = mem (src + (a - dest)) := by
  unfold memcpy
  exact if_pos ⟨h1, h2⟩

theorem memcpy_outside (mem : Mem) (dest src n a : Nat)
    (h : a < dest ∨ dest + n ≤ a) :
    memcpy mem dest src n a = mem a := by
  unfold memcpy
  apply if_neg
  rintro ⟨h1, h2⟩
  rcases h with h | h
  · exact absurd h1 (Nat.not_le_of_lt h)
  · exact absurd h2 (Nat.not_lt_of_le h)

/-- The block structure of `SonySDKHelperSimple.cpp`
(`class ImageDataBlockWrapper`): five fields, `pData` being a pointer
(`0` = null). -/
structure ImageDataBlockWrapper where
  frameNo : Nat
  size : Nat
  pData : Nat
  imageSize : Nat
  timeCode : Nat
deriving DecidableEq, Repr

/-- The default constructor
`ImageDataBlockWrapper() : frameNo(0), size(0), pData(nullptr), imageSize(0), timeCode(0)`. -/
def mkImageDataBlockWrapper : ImageDataBlockWrapper :=
  { frameNo := 0, size := 0, pData := 0, imageSize := 0, timeCode := 0 }

/-- `CreateImageDataBlock`: `return new ImageDataBlockWrapper();` — a
handle to a freshly constructed block (the successful-allocation case). -/
def CreateImageDataBlock : Option ImageDataBlockWrapper :=
  some mkImageDataBlockWrapper

/-- `DestroyImageDataBlock`: `if (imageData) delete ...;` — we record
whether the deallocation was in fact performed (`false` on a null
handle: nothing happens). -/
def DestroyImageDataBlock (imageData : Option ImageDataBlockWrapper) : Bool :=
  match imageData with
  | some _ => true
  | none => false

/-- `SetImageDataBlockSize`: on a non-null handle stores the `CrInt32u`
argument into the `size` field; on a null handle does nothing. -/
def SetImageDataBlockSize (imageData : Option ImageDataBlockWrapper)
    (size : Nat) : Option ImageDataBlockWrapper :=
  match imageData with
  | some b => some { b with size := size % 2 ^ 32 }
  | none => none

/-- `SetImageDataBlockData`: on a non-null handle stores the pointer
argument into the `pData` field; on a null handle does nothing. -/
def SetImageDataBlockData (imageData : Option ImageDataBlockWrapper)
    (data : Nat) : Option ImageDataBlockWrapper :=
  match imageData with
  | some b => some { b with pData := data }
  | none => none

/-- `GetImageDataBlockImageSize`: returns the `imageSize` field, or `0`
on a null handle. -/
def GetImageDataBlockImageSize (imageData : Option ImageDataBlockWrapper) : Nat :=
  match imageData with
  | some b => b.imageSize
  | none => 0

/-- `GetImageDataBlockImageData`: returns the `pData` field, or null
(`0`) on a null handle. -/
def GetImageDataBlockImageData (imageData : Option ImageDataBlockWrapper) : Nat :=
  match imageData with
  | some b => b.pData
  | none => 0

/-- `CopyImageData(imageData, destBuffer, bufferSize)` acting on memory:
`if (imageData && destBuffer)` guards the whole body; inside, the copy
runs only when `wrapper->pData && wrapper->imageSize > 0 &&
wrapper->imageSize <= bufferSize`, and then copies `imageSize` bytes
from `pData` to `destBuffer`. -/
def CopyImageData (imageData : Option ImageDataBlockWrapper)
    (destBuffer : Nat) (bufferSize : Nat) (mem : Mem) : Mem :=
  match imageData with
  | some wrapper =>
    if destBuffer ≠ 0 then
      if wrapper.pData ≠ 0 ∧ 0 < wrapper.imageSize ∧ wrapper.imageSize ≤ bufferSize then
        memcpy mem destBuffer wrapper.pData wrapper.imageSize
      else mem
    else mem
  | none => mem

/-- The two process-wide statics of `SonySDKHelperSimple.cpp` that the
lazy binding mutates: `static HMODULE hSonyDll = NULL;` and
`static GetLiveViewImageFunc pGetLiveViewImage = NULL;` (`false` models
the null value, `true` a non-null one). -/
structure SdkState where
  hSonyDll : Bool
  pGetLiveViewImage : Bool
deriving DecidableEq, Repr

/-- The statics at process start: both null. -/
def startSdkState : SdkState := { hSonyDll := false, pGetLiveViewImage := false }

/-- What the platform and the vendor do during one call:
whether `LoadLibraryA("Cr_Core.dll")` returns a non-null module handle,
whether `GetProcAddress(hSonyDll, "GetLiveViewImage")` resolves, and the
`CrError` value the vendor routine returns if it is invoked. -/
structure VendorEnv where
  loadLibrarySucceeds : Bool
  getProcSucceeds : Bool
  vendorResult : Int
deriving DecidableEq, Repr

/-- Everything one call to `GetLiveViewImageHelper` produces: the
returned `CrError`, the statics after the call, whether `LoadLibraryA`
was invoked during the call, whether it returned a usable handle, and
whether the vendor fetch routine was invoked. -/
structure FetchResult where
  ret : Int
  state : SdkState
  loadAttempted : Bool
  loadSucceeded : Bool
  vendorCalled : Bool
deriving DecidableEq, Repr

/-- The tail of `GetLiveViewImageHelper` after the lazy-load block:
`if (deviceHandle && imageData && pGetLiveViewImage) return
pGetLiveViewImage(deviceHandle, imageData); return 0x8001;`. -/
def finishFetch (env : VendorEnv) (st : SdkState) (la ls : Bool)
    (deviceHandle : Nat) (imageData : Option ImageDataBlockWrapper) : FetchResult :=
  if deviceHandle ≠ 0 ∧ imageData.isSome = true ∧ st.pGetLiveViewImage = true then
    { ret := env.vendorResult, state := st,
      loadAttempted := la, loadSucceeded := ls, vendorCalled := true }
  else
    { ret := 0x8001, state := st,
      loadAttempted := la, loadSucceeded := ls, vendorCalled := false }

/-- `GetLiveViewImageHelper` of `SonySDKHelperSimple.cpp`.  The lazy-load
block runs first, before any argument validation: when `hSonyDll` is
null the call invokes `LoadLibraryA`; on load failure it returns
`0x8001` with both statics untouched; on load success it stores the
module handle and the (possibly null) result of `GetProcAddress`,
returning `0x8001` when the symbol is missing; only then are the two
arguments and the cached pointer checked. -/
def GetLiveViewImageHelper (env : VendorEnv) (st : SdkState)
    (deviceHandle : Nat) (imageData : Option ImageDataBlockWrapper) : FetchResult :=
  if st.hSonyDll = false then
    if env.loadLibrarySucceeds = false then
      { ret := 0x8001, state := st,
        loadAttempted := true, loadSucceeded := false, vendorCalled := false }
    else if env.getProcSucceeds = false then
      { ret := 0x8001, state := { hSonyDll := true, pGetLiveViewImage := false },
        loadAttempted := true, loadSucceeded := true, vendorCalled := false }
    else
      finishFetch env { hSonyDll := true, pGetLiveViewImage := true } true true
        deviceHandle imageData
  else
    finishFetch env st false false deviceHandle imageData

/-- One queued call in a contention-free (sequential) trace of
`GetLiveViewImageHelper` calls: the environment of that call and its two
arguments. -/
structure CallArgs where
  env : VendorEnv
  deviceHandle : Nat
  imageData : Option ImageDataBlockWrapper

/-- Run a sequence of `GetLiveViewImageHelper` calls, threading the
process-wide statics from each call to the next; collects the results. -/
def runCalls (st : SdkState) : List CallArgs → List FetchResult
  | [] => []
  | c :: cs =>
    let r := GetLiveViewImageHelper c.env st c.deviceHandle c.imageData
    r :: runCalls r.state cs

end SonyShim

namespace SonySDKHelper

/-- Result of the `GetLiveViewImageHelper` of `SonySDKHelper.cpp` (the
translation unit that binds the vendor at link time): the returned
`CrError` and whether the imported `GetLiveViewImage` was invoked. -/
structure LinkedFetchResult where
  ret : Int
  vendorCalled : Bool
deriving DecidableEq, Repr

/-- `GetLiveViewImageHelper` of `SonySDKHelper.cpp`:
`if (deviceHandle && imageData) return GetLiveViewImage(deviceHandle, ...);
return 0x8001;` — `vendorResult` is the value the imported vendor
routine returns if invoked. -/
def GetLiveViewImageHelper (vendorResult : Int) (deviceHandle : Nat)
    (imageData : Option SonyShim.ImageDataBlockWrapper) : LinkedFetchResult :=
  if deviceHandle ≠ 0 ∧ imageData.isSome = true then
    { ret := vendorResult, vendorCalled := true }
  else
    { ret := 0x8001, vendorCalled := false }

end SonySDKHelper

open SonyShim

section HelperLemmas

theorem finishFetch_state (env : VendorEnv) (st : SdkState) (la ls : Bool)
    (d : Nat) (i : Option ImageDataBlockWrapper) :
    (finishFetch env st la ls d i).state = st := by
  unfold finishFetch
  split <;> rfl

theorem finishFetch_loadAttempted (env : VendorEnv) (st : SdkState) (la ls : Bool)
    (d : Nat) (i : Option ImageDataBlockWrapper) :
    (finishFetch env st la ls d i).loadAttempted = la := by
  unfold finishFetch
  split <;> rfl

theorem finishFetch_loadSucceeded (env : VendorEnv) (st : SdkState) (la ls : Bool)
    (d : Nat) (i : Option ImageDataBlockWrapper) :
    (finishFetch env st la ls d i).loadSucceeded = ls := by
  unfold finishFetch
  split <;> rfl

theorem cached_call (env : VendorEnv) (st : SdkState) (d : Nat)
    (i : Option ImageDataBlockWrapper) (h : st.hSonyDll = true) :
    GetLiveViewImageHelper env st d i = finishFetch env st false false d i := by
  unfold GetLiveViewImageHelper
  rw [if_neg (by simp [h])]

theorem runCalls_no_load (calls : List CallArgs) :
    ∀ st : SdkState, st.hSonyDll = true →
      List.countP (fun r => r.loadSucceeded) (runCalls st calls) = 0 := by
  induction calls with
  | nil => intro st _; rfl
  | cons c cs ih =>
    intro st h
    rw [runCalls, List.countP_cons]
    rw [cached_call c.env st c.deviceHandle c.imageData h]
    rw [finishFetch_loadSucceeded, finishFetch_state]
    simp [ih st h]

end HelperLemmas

/-- Claim C1: for every block handle `h`, destination buffer `d` and
capacity `n`, `CopyImageData(h, d, n)` performs a copy only when the
block has a non-null `pData`, a positive `imageSize`, and
`imageSize ≤ n`; in that case it copies exactly
`min(imageSize, n) = imageSize` bytes from `pData` into `d`; in every
other case the destination memory is unchanged.  (The null-destination
case is the subject of claim C10 and is excluded here by `d ≠ 0`.) -/
theorem C1_copyImageData_bounded :
    (∀ (b : ImageDataBlockWrapper) (d n : Nat) (mem : Mem),
        d ≠ 0 → b.pData ≠ 0 → 0 < b.imageSize → b.imageSize ≤ n →
        CopyImageData (some b) d n mem = memcpy mem d b.pData b.imageSize ∧
        min b.imageSize n = b.imageSize) ∧
    (∀ (h : Option ImageDataBlockWrapper) (d n : Nat) (mem : Mem),
        (∀ b, h = some b → ¬(b.pData ≠ 0 ∧ 0 < b.imageSize ∧ b.imageSize ≤ n)) →
        CopyImageData h d n mem = mem) := by
  constructor
  · intro b d n mem hd hp hs hn
    refine ⟨?_, min_eq_left hn⟩
    simp only [CopyImageData]
    rw [if_pos hd, if_pos ⟨hp, hs, hn⟩]
  · intro h d n mem hcond
    cases h with
    | none => rfl
    | some b =>
      simp only [CopyImageData]
      by_cases hd : d ≠ 0
      · rw [if_pos hd, if_neg (hcond b rfl)]
      · rw [if_neg hd]

/-- Witness for C1 at a concrete input: a block whose `pData` is address
`7` and whose `imageSize` is `3`, copied into destination `10` with
capacity `5`, over the identity memory. -/
theorem C1_copyImageData_bounded_witness :
    CopyImageData (some ⟨0, 0, 7, 3, 0⟩) 10 5 (fun a => a) =
      memcpy (fun a => a) 10 7 3 ∧ min 3 5 = 3 :=
  C1_copyImageData_bounded.1 ⟨0, 0, 7, 3, 0⟩ 10 5 (fun a => a)
    (by decide) (by decide) (by decide) (by decide)

/-- Claim C5: every handle returned by `CreateImageDataBlock` refers to a
freshly created block whose `frameNo`, `size`, `imageSize` and
`timeCode` are zero and whose `pData` is null. -/
theorem C5_create_fresh_block :
    ∀ b : ImageDataBlockWrapper, CreateImageDataBlock = some b →
      b.frameNo = 0 ∧ b.size = 0 ∧ b.imageSize = 0 ∧ b.timeCode = 0 ∧ b.pData = 0 := by
  intro b hb
  have h : mkImageDataBlockWrapper = b := Option.some.inj hb
  subst h
  exact ⟨rfl, rfl, rfl, rfl, rfl⟩

/-- Witness for C5: the concrete handle `CreateImageDataBlock` returns. -/
theorem C5_create_fresh_block_witness :
    mkImageDataBlockWrapper.frameNo = 0 ∧ mkImageDataBlockWrapper.size = 0 ∧
    mkImageDataBlockWrapper.imageSize = 0 ∧ mkImageDataBlockWrapper.timeCode = 0 ∧
    mkImageDataBlockWrapper.pData = 0 :=
  C5_create_fresh_block mkImageDataBlockWrapper rfl

/-- Claim C6: on a null block handle, `DestroyImageDataBlock`,
`SetImageDataBlockSize`, `SetImageDataBlockData` and `CopyImageData` are
no-ops that write nothing, `GetImageDataBlockImageSize` returns `0`, and
`GetImageDataBlockImageData` returns null. -/
theorem C6_null_handle_tolerance :
    DestroyImageDataBlock none = false ∧
    (∀ n : Nat, SetImageDataBlockSize none n = none) ∧
    (∀ p : Nat, SetImageDataBlockData none p = none) ∧
    (∀ (d n : Nat) (mem : Mem), CopyImageData none d n mem = mem) ∧
    GetImageDataBlockImageSize none = 0 ∧
    GetImageDataBlockImageData none = 0 :=
  ⟨rfl, fun _ => rfl, fun _ => rfl, fun _ _ _ => rfl, rfl, rfl⟩

/-- Claim C7: on a non-null handle, `SetImageDataBlockSize` changes the
return value of neither `GetImageDataBlockImageSize` nor
`GetImageDataBlockImageData` — the `size` field is invisible to the
getters of this surface. -/
theorem C7_set_size_invisible_to_getters :
    ∀ (b : ImageDataBlockWrapper) (n : Nat),
      GetImageDataBlockImageSize (SetImageDataBlockSize (some b) n) =
        GetImageDataBlockImageSize (some b) ∧
      GetImageDataBlockImageData (SetImageDataBlockSize (some b) n) =
        GetImageDataBlockImageData (some b) :=
  fun _ _ => ⟨rfl, rfl⟩

/-- Claim C8: on a non-null handle, `GetImageDataBlockImageData` returns
the stored `pData` field; in particular the set/get round trip through
`SetImageDataBlockData` holds without any fetch in between. -/
theorem C8_get_image_data_round_trip :
    (∀ b : ImageDataBlockWrapper, GetImageDataBlockImageData (some b) = b.pData) ∧
    (∀ (b : ImageDataBlockWrapper) (p : Nat),
      GetImageDataBlockImageData (SetImageDataBlockData (some b) p) = p) :=
  ⟨fun _ => rfl, fun _ _ => rfl⟩

/-- Claim C10: `CopyImageData` with a null destination buffer is a silent
no-op for every block handle and capacity: the memory is unchanged. -/
theorem C10_null_dest_noop :
    ∀ (h : Option ImageDataBlockWrapper) (n : Nat) (mem : Mem),
      CopyImageData h 0 n mem = mem := by
  intro h n mem
  cases h with
  | none => rfl
  | some b =>
    simp only [CopyImageData]
    rw [if_neg fun hc : (0 : Nat) ≠ 0 => hc rfl]

/-- Counterexample to claim C2 as stated: with the library not yet
cached and `LoadLibraryA` able to succeed, a null-block fetch still
returns `0x8001`, but the call attempts the vendor library load and
caches the module handle — vendor interaction does occur. -/
theorem C2_null_block_counterexample :
    (GetLiveViewImageHelper ⟨true, true, 0⟩ startSdkState 1 none).ret = 0x8001 ∧
    (GetLiveViewImageHelper ⟨true, true, 0⟩ startSdkState 1 none).loadAttempted = true ∧
    (GetLiveViewImageHelper ⟨true, true, 0⟩ startSdkState 1 none).state.hSonyDll = true := by
  decide

/-- Claim C2 as amended: for every device handle, environment and cached
state, a null-block fetch returns `0x8001` and never invokes the vendor
fetch routine — but in the lazily bound translation unit the call may
still attempt (and cache) the vendor library load when the module handle
is not yet cached; the link-time-bound translation unit performs no
vendor call at all on a null block. -/
theorem C2_null_block_fetch_amended :
    (∀ (env : VendorEnv) (st : SdkState) (d : Nat),
        (GetLiveViewImageHelper env st d none).ret = 0x8001 ∧
        (GetLiveViewImageHelper env st d none).vendorCalled = false) ∧
    (∀ (v : Int) (d : Nat),
        (SonySDKHelper.GetLiveViewImageHelper v d none).ret = 0x8001 ∧
        (SonySDKHelper.GetLiveViewImageHelper v d none).vendorCalled = false) := by
  constructor
  · intro env st d
    rcases st with ⟨hDll, pFun⟩
    rcases env with ⟨lL, gP, vR⟩
    cases hDll <;> cases lL <;> cases gP <;>
      simp [GetLiveViewImageHelper, finishFetch]
  · intro v d
    unfold SonySDKHelper.GetLiveViewImageHelper
    rw [if_neg (by simp)]
    exact ⟨rfl, rfl⟩

/-- Claim C3: when the module handle is not cached and the library load
fails, `GetLiveViewImageHelper` returns `0x8001` and leaves both statics
unchanged, so a later call re-attempts the load and, once the library
and symbol are available and the arguments are valid, succeeds with the
vendor value. -/
theorem C3_load_failure_no_cache_retry :
    ∀ (env : VendorEnv) (st : SdkState) (d : Nat)
      (i : Option ImageDataBlockWrapper) (env2 : VendorEnv) (d2 : Nat)
      (b2 : ImageDataBlockWrapper),
      st.hSonyDll = false → env.loadLibrarySucceeds = false →
      env2.loadLibrarySucceeds = true → env2.getProcSucceeds = true → d2 ≠ 0 →
      (GetLiveViewImageHelper env st d i).ret = 0x8001 ∧
      (GetLiveViewImageHelper env st d i).state = st ∧
      (GetLiveViewImageHelper env2 (GetLiveViewImageHelper env st d i).state d2
        (some b2)).loadAttempted = true ∧
      (GetLiveViewImageHelper env2 (GetLiveViewImageHelper env st d i).state d2
        (some b2)).ret = env2.vendorResult := by
  intro env st d i env2 d2 b2 hst hload hl2 hp2 hd2
  have h1 : GetLiveViewImageHelper env st d i =
      { ret := 0x8001, state := st,
        loadAttempted := true, loadSucceeded := false, vendorCalled := false } := by
    unfold GetLiveViewImageHelper
    rw [if_pos hst, if_pos hload]
  have h2 : GetLiveViewImageHelper env2 st d2 (some b2) =
      finishFetch env2 { hSonyDll := true, pGetLiveViewImage := true } true true d2
        (some b2) := by
    unfold GetLiveViewImageHelper
    rw [if_pos hst, if_neg (by simp [hl2]), if_neg (by simp [hp2])]
  have h3 : finishFetch env2 { hSonyDll := true, pGetLiveViewImage := true } true true d2
      (some b2) =
      { ret := env2.vendorResult,
        state := { hSonyDll := true, pGetLiveViewImage := true },
        loadAttempted := true, loadSucceeded := true, vendorCalled := true } := by
    unfold finishFetch
    rw [if_pos ⟨hd2, rfl, rfl⟩]
  rw [h1]
  exact ⟨rfl, rfl, by rw [h2, h3], by rw [h2, h3]⟩

/-- Witness for C3 at concrete inputs: first call from process start
with the load failing, second call with load and symbol resolution
succeeding on a valid device handle and block. -/
theorem C3_load_failure_no_cache_retry_witness :
    (GetLiveViewImageHelper ⟨false, false, 0⟩ startSdkState 1 none).ret = 0x8001 ∧
    (GetLiveViewImageHelper ⟨false, false, 0⟩ startSdkState 1 none).state = startSdkState ∧
    (GetLiveViewImageHelper ⟨true, true, 5⟩
      (GetLiveViewImageHelper ⟨false, false, 0⟩ startSdkState 1 none).state 1
      (some mkImageDataBlockWrapper)).loadAttempted = true ∧
    (GetLiveViewImageHelper ⟨true, true, 5⟩
      (GetLiveViewImageHelper ⟨false, false, 0⟩ startSdkState 1 none).state 1
      (some mkImageDataBlockWrapper)).ret = 5 :=
  C3_load_failure_no_cache_retry ⟨false, false, 0⟩ startSdkState 1 none ⟨true, true, 5⟩
    1 mkImageDataBlockWrapper rfl rfl rfl rfl (by decide)

theorem runCalls_load_once : ∀ (calls : List CallArgs) (st : SdkState),
    List.countP (fun r => r.loadSucceeded) (runCalls st calls) ≤ 1 := by
  intro calls
  induction calls with
  | nil => intro st; simp [runCalls]
  | cons c cs ih =>
    intro st
    cases hS : st.hSonyDll with
    | true =>
      rw [runCalls_no_load (c :: cs) st hS]
      exact Nat.zero_le 1
    | false =>
      rw [runCalls, List.countP_cons]
      cases hl : c.env.loadLibrarySucceeds with
      | false =>
        have hr : GetLiveViewImageHelper c.env st c.deviceHandle c.imageData =
            { ret := 0x8001, state := st, loadAttempted := true,
              loadSucceeded := false, vendorCalled := false } := by
          unfold GetLiveViewImageHelper
          rw [if_pos hS, if_pos hl]
        rw [hr]
        simpa using ih st
      | true =>
        cases hp : c.env.getProcSucceeds with
        | false =>
          have hr : GetLiveViewImageHelper c.env st c.deviceHandle c.imageData =
              { ret := 0x8001,
                state := { hSonyDll := true, pGetLiveViewImage := false },
                loadAttempted := true, loadSucceeded := true, vendorCalled := false } := by
            unfold GetLiveViewImageHelper
            rw [if_pos hS, if_neg (by simp [hl]), if_pos hp]
          rw [hr]
          simp [runCalls_no_load cs { hSonyDll := true, pGetLiveViewImage := false } rfl]
        | true =>
          have hr : GetLiveViewImageHelper c.env st c.deviceHandle c.imageData =
              finishFetch c.env { hSonyDll := true, pGetLiveViewImage := true } true true
                c.deviceHandle c.imageData := by
            unfold GetLiveViewImageHelper
            rw [if_pos hS, if_neg (by simp [hl]), if_neg (by simp [hp])]
          rw [hr]
          simp [finishFetch_loadSucceeded, finishFetch_state,
            runCalls_no_load cs { hSonyDll := true, pGetLiveViewImage := true } rfl]

/-- Claim C4: once the module handle is cached, a call of
`GetLiveViewImageHelper` never re-attempts the library load and leaves
the statics unchanged; when the symbol resolution had failed after the
successful load, every such call returns `0x8001` without invoking the
vendor; and over any contention-free sequence of calls the library load
succeeds at most once. -/
theorem C4_module_cached_no_reload :
    (∀ (env : VendorEnv) (st : SdkState) (d : Nat) (i : Option ImageDataBlockWrapper),
        st.hSonyDll = true →
        (GetLiveViewImageHelper env st d i).loadAttempted = false ∧
        (GetLiveViewImageHelper env st d i).state = st ∧
        (st.pGetLiveViewImage = false →
          (GetLiveViewImageHelper env st d i).ret = 0x8001 ∧
          (GetLiveViewImageHelper env st d i).vendorCalled = false)) ∧
    (∀ (st : SdkState) (calls : List CallArgs),
        List.countP (fun r => r.loadSucceeded) (runCalls st calls) ≤ 1) := by
  constructor
  · intro env st d i h
    rw [cached_call env st d i h]
    refine ⟨finishFetch_loadAttempted env st false false d i,
      finishFetch_state env st false false d i, ?_⟩
    intro hp
    unfold finishFetch
    rw [if_neg (by simp [hp])]
    exact ⟨rfl, rfl⟩
  · intro st calls
    exact runCalls_load_once calls st

/-- Witness for C4: a cached state with the symbol missing, and a
concrete two-call trace from process start in which both calls could
load the library. -/
theorem C4_module_cached_no_reload_witness :
    (GetLiveViewImageHelper ⟨true, true, 3⟩ ⟨true, false⟩ 1 none).loadAttempted = false ∧
    (GetLiveViewImageHelper ⟨true, true, 3⟩ ⟨true, false⟩ 1 none).state = ⟨true, false⟩ ∧
    (GetLiveViewImageHelper ⟨true, true, 3⟩ ⟨true, false⟩ 1 none).ret = 0x8001 ∧
    (GetLiveViewImageHelper ⟨true, true, 3⟩ ⟨true, false⟩ 1 none).vendorCalled = false ∧
    List.countP (fun r => r.loadSucceeded)
      (runCalls startSdkState
        [{ env := ⟨true, true, 1⟩, deviceHandle := 1,
           imageData := some mkImageDataBlockWrapper },
         { env := ⟨true, true, 2⟩, deviceHandle := 1,
           imageData := some mkImageDataBlockWrapper }]) ≤ 1 :=
  have h := C4_module_cached_no_reload.1 ⟨true, true, 3⟩ ⟨true, false⟩ 1 none rfl
  ⟨h.1, h.2.1, (h.2.2 rfl).1, (h.2.2 rfl).2,
   C4_module_cached_no_reload.2 startSdkState _⟩

/-- Claim C9: whenever both handles are non-null and the vendor binding
has succeeded — either already cached, or freshly resolved during the
call — `GetLiveViewImageHelper` returns exactly the value of the vendor
fetch routine; whenever the vendor routine is not invoked the return
value is `0x8001`; the link-time-bound translation unit likewise passes
the vendor value through on valid arguments. -/
theorem C9_vendor_result_passthrough :
    (∀ (env : VendorEnv) (st : SdkState) (d : Nat) (b : ImageDataBlockWrapper),
        d ≠ 0 → st.hSonyDll = true → st.pGetLiveViewImage = true →
        (GetLiveViewImageHelper env st d (some b)).ret = env.vendorResult ∧
        (GetLiveViewImageHelper env st d (some b)).vendorCalled = true) ∧
    (∀ (env : VendorEnv) (st : SdkState) (d : Nat) (b : ImageDataBlockWrapper),
        d ≠ 0 → st.hSonyDll = false → env.loadLibrarySucceeds = true →
        env.getProcSucceeds = true →
        (GetLiveViewImageHelper env st d (some b)).ret = env.vendorResult ∧
        (GetLiveViewImageHelper env st d (some b)).vendorCalled = true) ∧
    (∀ (env : VendorEnv) (st : SdkState) (d : Nat) (i : Option ImageDataBlockWrapper),
        (GetLiveViewImageHelper env st d i).vendorCalled = false →
        (GetLiveViewImageHelper env st d i).ret = 0x8001) ∧
    (∀ (v : Int) (d : Nat) (b : ImageDataBlockWrapper), d ≠ 0 →
        (SonySDKHelper.GetLiveViewImageHelper v d (some b)).ret = v ∧
        (SonySDKHelper.GetLiveViewImageHelper v d (some b)).vendorCalled = true) := by
  refine ⟨?_, ?_, ?_, ?_⟩
  · intro env st d b hd hh hp
    rw [cached_call env st d (some b) hh]
    unfold finishFetch
    rw [if_pos ⟨hd, rfl, hp⟩]
    exact ⟨rfl, rfl⟩
  · intro env st d b hd hh hl hp
    unfold GetLiveViewImageHelper
    rw [if_pos hh, if_neg (by simp [hl]), if_neg (by simp [hp])]
    unfold finishFetch
    rw [if_pos ⟨hd, rfl, rfl⟩]
    exact ⟨rfl, rfl⟩
  · intro env st d i
    unfold GetLiveViewImageHelper finishFetch
    split_ifs <;> simp
  · intro v d b hd
    unfold SonySDKHelper.GetLiveViewImageHelper
    rw [if_pos ⟨hd, rfl⟩]
    exact ⟨rfl, rfl⟩

/-- Witness for C9: the cached-and-bound case at a concrete vendor value
`11`, a non-invoked case (null device handle) returning `0x8001`, and
the link-time-bound unit at vendor value `13`. -/
theorem C9_vendor_result_passthrough_witness :
    ((GetLiveViewImageHelper ⟨false, false, 11⟩ ⟨true, true⟩ 1
        (some mkImageDataBlockWrapper)).ret = 11 ∧
      (GetLiveViewImageHelper ⟨false, false, 11⟩ ⟨true, true⟩ 1
        (some mkImageDataBlockWrapper)).vendorCalled = true) ∧
    (GetLiveViewImageHelper ⟨true, true, 9⟩ startSdkState 0 none).ret = 0x8001 ∧
    ((SonySDKHelper.GetLiveViewImageHelper 13 2 (some mkImageDataBlockWrapper)).ret = 13 ∧
      (SonySDKHelper.GetLiveViewImageHelper 13 2
        (some mkImageDataBlockWrapper)).vendorCalled = true) :=
  ⟨C9_vendor_result_passthrough.1 ⟨false, false, 11⟩ ⟨true, true⟩ 1
      mkImageDataBlockWrapper (by decide) rfl rfl,
    C9_vendor_result_passthrough.2.2.1 ⟨true, true, 9⟩ startSdkState 0 none (by decide),
    C9_vendor_result_passthrough.2.2.2 13 2 mkImageDataBlockWrapper (by decide)⟩
